import Mathlib

/-!
Shallow embedding of `floodlights.py`, a CLI that drives a Tuya smart
floodlight through the external `tinytuya` library.  The configuration file
(`~/.floodlights/config.ini`, INI with one `Floodlight` section) is embedded
as an explicit `ConfigState`; device communication is embedded as the list of
library calls a command issues, with an explicit `DeviceBehavior` standing for
the external device/library (which may raise).  Python exceptions are embedded
as `Except PyError`; Python dicts as association lists with in-place update
and append-on-new-key, matching dict assignment semantics.
-/

set_option autoImplicit false

/-- A value written to or read from a device data point (Python values
`True`/`False`, ints, strings as they appear in `set_value`/`status`). -/
inductive DPValue where
  | b (x : Bool)
  | i (x : Int)
  | s (x : String)
deriving DecidableEq, Repr

/-- One call into the `tinytuya` device object: `set_value(dp, v)` or
`status()`. -/
inductive DeviceCall where
  | set_value (dp : Nat) (v : DPValue)
  | statusQuery
deriving DecidableEq, Repr

/-- The Python exceptions relevant to the program: the program's own
`ConfigError`; `configparser.NoSectionError`; the `ValueError` raised by
`float(...)` on a non-numeric string and by `BasicInterpolation.before_set`
on a value with a bare `%`; the `configparser` interpolation errors raised
by `config.get` (`InterpolationSyntaxError`, `InterpolationMissingOptionError`,
`InterpolationDepthError`); and errors raised by the device library during
communication. -/
inductive PyError where
  | configError
  | noSection
  | valueError
  | interpolationSyntax
  | interpolationMissingOption
  | interpolationDepth
  | deviceError (msg : String)
deriving DecidableEq, Repr

/-- The `Floodlight` section of the INI file: the four stored string
fields (lines 25-30 / 124-129 of the source). -/
structure FloodlightSection where
  device_id : String
  device_ip : String
  device_key : String
  device_version : String
deriving DecidableEq, Repr

/-- State of the configuration store: whether the file at
`config_file_path` exists, and the `Floodlight` section of the parsed
`config` object when present.  (The in-memory parser is re-read from the
file on startup, so the two are kept in lockstep.  A present section always
holds the four options, as every section the program itself writes does;
the stored strings are the raw values, to which `config.get` applies
`BasicInterpolation`.) -/
structure ConfigState where
  fileExists : Bool
  floodlight : Option FloodlightSection
deriving DecidableEq, Repr

/- ### `BasicInterpolation.before_set`: validation applied on every write

`config['Floodlight'] = {...}` goes through `RawConfigParser.set`, which
calls `BasicInterpolation.before_set` on each value: it removes every
`%%` pair, then every `%(name)s` reference (the `_KEYCRE` pattern, with a
nonempty name of non-`)` characters), and raises `ValueError` when a `%`
remains. -/

/-- `value.replace("%%", "")`: left-to-right removal of `%%` pairs. -/
def removeDoublePercents : List Char → List Char
  | [] => []
  | '%' :: '%' :: rest => removeDoublePercents rest
  | c :: rest => c :: removeDoublePercents rest

/-- `_KEYCRE.sub('', value)`: left-to-right removal of every `%(name)s`
reference, where `name` is one or more non-`)` characters. -/
def removeKeyRefs : List Char → List Char
  | [] => []
  | c :: rest =>
    if c = '%' then
      match hrest : rest with
      | '(' :: rest2 =>
        let name := rest2.takeWhile (fun x => x ≠ ')')
        match hdrop : rest2.drop name.length with
        | d1 :: d2 :: rest3 =>
          if ¬ name.isEmpty ∧ d1 = ')' ∧ d2 = 's' then removeKeyRefs rest3
          else '%' :: removeKeyRefs rest
        | _ => '%' :: removeKeyRefs rest
      | _ => '%' :: removeKeyRefs rest
    else c :: removeKeyRefs rest
termination_by cs => cs.length
decreasing_by
  all_goals simp_wf
  all_goals try omega
  all_goals try rw [hrest]
  all_goals try (have h := congrArg List.length hdrop; rw [List.length_drop] at h; simp at h)
  all_goals simp
  all_goals omega

/-- Whether `BasicInterpolation.before_set` accepts the value (no bare `%`
left after removing `%%` pairs and `%(name)s` references). -/
def before_set_ok (value : String) : Bool :=
  !(removeKeyRefs (removeDoublePercents value.data)).contains '%'

/-- `configure` (source lines 122-132, and identically lines 18-35):
assign `config['Floodlight']` wholesale from the four supplied values and
write the file.  Each value passes `before_set`; a value with a bare `%`
makes the assignment raise `ValueError`, in which case nothing is written
to disk (the partially updated in-memory parser dies with the process). -/
def configure (st : ConfigState) (device_id device_ip device_key device_version : String) :
    Except PyError ConfigState :=
  let _ := st
  if before_set_ok device_id && before_set_ok device_ip && before_set_ok device_key &&
      before_set_ok device_version then
    .ok { fileExists := true
          floodlight := some ⟨device_id, device_ip, device_key, device_version⟩ }
  else .error .valueError

/-- The condition of source lines 38 and 50: the config file does not
exist, or the parsed config has no `Floodlight` section. -/
def missingConfig (st : ConfigState) : Bool :=
  !st.fileExists || !st.floodlight.isSome

/-- `check_config` (source lines 49-51): raise `ConfigError` when the
configuration is missing or malformed. -/
def check_config (st : ConfigState) : Except PyError Unit :=
  if missingConfig st then .error .configError else .ok ()

/- ### Python `float(str)` acceptance

`FloodlightController.__init__` calls `float(self.device_version)`
(source line 61).  `pyFloatOk` embeds whether Python's builtin `float`
accepts the string.  CPython first transforms the string
(`_PyUnicode_TransformDecimalAndSpaceToASCII`): characters below 127 are
kept, Unicode whitespace becomes a space, Unicode decimal digits
(category Nd) become ASCII digits, anything else becomes `?`.  The ASCII
result is then parsed: optional surrounding ASCII whitespace, an optional
sign, then `inf`/`infinity`/`nan` (case-insensitive) or a decimal
mantissa with optional exponent, with underscores permitted only between
digits. -/

/-- The non-ASCII code points Python treats as whitespace
(`Py_UNICODE_ISSPACE`, Unicode 14 as in CPython 3.11). -/
def uniSpaceVals : List Nat :=
  [0x85, 0xA0, 0x1680, 0x2000, 0x2001, 0x2002, 0x2003, 0x2004, 0x2005, 0x2006, 0x2007,
   0x2008, 0x2009, 0x200A, 0x2028, 0x2029, 0x202F, 0x205F, 0x3000]

/-- The first code point of every run of ten Unicode decimal digits
(category Nd, decimal values 0-9; Unicode 14 as in CPython 3.11). -/
def ndBases : List Nat :=
  [0x30, 0x660, 0x6F0, 0x7C0, 0x966, 0x9E6, 0xA66, 0xAE6, 0xB66, 0xBE6, 0xC66, 0xCE6,
   0xD66, 0xDE6, 0xE50, 0xED0, 0xF20, 0x1040, 0x1090, 0x17E0, 0x1810, 0x1946, 0x19D0,
   0x1A80, 0x1A90, 0x1B50, 0x1BB0, 0x1C40, 0x1C50, 0xA620, 0xA8D0, 0xA900, 0xA9D0,
   0xA9F0, 0xAA50, 0xABF0, 0xFF10, 0x104A0, 0x10D30, 0x11066, 0x110F0, 0x11136,
   0x111D0, 0x112F0, 0x11450, 0x114D0, 0x11650, 0x116C0, 0x11730, 0x118E0, 0x11950,
   0x11C50, 0x11D50, 0x11DA0, 0x16A60, 0x16AC0, 0x16B50, 0x1D7CE, 0x1D7D8, 0x1D7E2,
   0x1D7EC, 0x1D7F6, 0x1E140, 0x1E2F0, 0x1E950, 0x1FBF0]

/-- The decimal value of a Unicode decimal digit (`Py_UNICODE_TODECIMAL`). -/
def decimalDigitVal (c : Char) : Option Nat :=
  (ndBases.find? (fun b => b ≤ c.toNat && c.toNat < b + 10)).map (fun b => c.toNat - b)

/-- One character of `_PyUnicode_TransformDecimalAndSpaceToASCII`. -/
def transformChar (c : Char) : Char :=
  if c.toNat < 127 then c
  else if uniSpaceVals.contains c.toNat then ' '
  else
    match decimalDigitVal c with
    | some d => Char.ofNat (48 + d)
    | none => '?'

/-- The ASCII whitespace stripped around the transformed payload
(C-locale `isspace`). -/
def pyWhitespace (c : Char) : Bool :=
  c = ' ' || c = '\t' || c = '\n' || c = '\r' || c = Char.ofNat 11 || c = Char.ofNat 12

/-- Strip leading and trailing whitespace from a character list. -/
def stripChars (cs : List Char) : List Char :=
  ((cs.dropWhile pyWhitespace).reverse.dropWhile pyWhitespace).reverse

/-- Drop one optional leading sign character. -/
def dropSign : List Char → List Char
  | [] => []
  | c :: rest => if c = '+' || c = '-' then rest else c :: rest

/-- A nonempty run of decimal digits in which `_` may appear only between
two digits (Python numeric-literal underscore rule). -/
def isDigitRun : List Char → Bool
  | [] => false
  | [c] => c.isDigit
  | c :: d :: rest =>
    c.isDigit && (if d = '_' then isDigitRun rest else isDigitRun (d :: rest))

/-- Split at the first `e`/`E`, returning the mantissa part and, when an
exponent marker is present, the remainder after it. -/
def splitOnExp : List Char → List Char × Option (List Char)
  | [] => ([], none)
  | c :: rest =>
    if c = 'e' || c = 'E' then ([], some rest)
    else
      let p := splitOnExp rest
      (c :: p.1, p.2)

/-- Split at the first `.`, when any. -/
def splitOnDot : List Char → Option (List Char × List Char)
  | [] => none
  | c :: rest =>
    if c = '.' then some ([], rest)
    else (splitOnDot rest).map (fun p => (c :: p.1, p.2))

/-- The decimal mantissa forms `float` accepts: `digits`, `digits.`,
`digits.digits`, `.digits`. -/
def isMantissa (cs : List Char) : Bool :=
  match splitOnDot cs with
  | none => isDigitRun cs
  | some (a, b) =>
    if b.contains '.' then false
    else if a.isEmpty then isDigitRun b
    else if b.isEmpty then isDigitRun a
    else isDigitRun a && isDigitRun b

/-- Whether Python's builtin `float` accepts the string (no exception). -/
def pyFloatOk (s : String) : Bool :=
  let cs := dropSign (stripChars (s.data.map transformChar))
  let low := cs.map Char.toLower
  if low = "inf".data || low = "infinity".data || low = "nan".data then true
  else
    match splitOnExp cs with
    | (m, none) => isMantissa m
    | (m, some ex) => isMantissa m && isDigitRun (dropSign ex)

/-- The constructor arguments of `tinytuya.OutletDevice(id, address, key)`
(source line 60); the library itself is external to the repository. -/
structure TuyaDevice where
  dev_id : String
  address : String
  local_key : String
deriving DecidableEq, Repr

/-- The fields a successfully constructed `FloodlightController` holds
(source lines 53-61). -/
structure FloodlightController where
  device_id : String
  device_ip : String
  device_key : String
  device_version : String
  device : TuyaDevice
deriving DecidableEq, Repr

/- ### `BasicInterpolation.before_get`: interpolation applied on every read

`config.get` interpolates the stored raw value (`_interpolate_some`):
`%%` becomes `%`; `%(name)s` substitutes the raw value of option `name`
(lowercased by `optionxform`), recursing when the substituted value
itself contains `%`, with recursion depth capped at
`MAX_INTERPOLATION_DEPTH = 10`; any other use of `%` raises
`InterpolationSyntaxError`; an unknown option name raises
`InterpolationMissingOptionError`. -/

/-- `str.lower` as `optionxform` applies it to `%(name)s` references
(exact on the ASCII option names this program stores). -/
def asciiLower (sIn : String) : String :=
  String.mk (sIn.data.map Char.toLower)

/-- The option map `config.get` resolves `%(name)s` references against:
the raw values of the `Floodlight` section (the `DEFAULT` section is
empty, as the program never writes one). -/
def sectionLookup (fl : FloodlightSection) (name : String) : Option String :=
  let n := asciiLower name
  if n = "device_id" then some fl.device_id
  else if n = "device_ip" then some fl.device_ip
  else if n = "device_key" then some fl.device_key
  else if n = "device_version" then some fl.device_version
  else none

/-- One scanning pass of `_interpolate_some` over a raw value: literal
characters pass through, `%%` emits `%`, a `%(name)s` reference looks up
the option and either appends its `%`-free value or hands a `%`-containing
value to `subst` (the depth-counted recursion), and any other `%` raises
`InterpolationSyntaxError`. -/
def interpScan (lookup : String → Option String) (subst : String → Except PyError (List Char)) :
    List Char → Except PyError (List Char)
  | [] => .ok []
  | c :: rest =>
    if c = '%' then
      match rest with
      | [] => .error .interpolationSyntax
      | c2 :: rest2 =>
        if c2 = '%' then (interpScan lookup subst rest2).map (fun t => '%' :: t)
        else if c2 = '(' then
          let name := rest2.takeWhile (fun x => x ≠ ')')
          match hdrop : rest2.drop name.length with
          | d1 :: d2 :: rest3 =>
            if ¬ name.isEmpty ∧ d1 = ')' ∧ d2 = 's' then
              match lookup (String.mk name) with
              | none => .error .interpolationMissingOption
              | some v =>
                if v.data.contains '%' then
                  match subst v with
                  | .error e => .error e
                  | .ok sub => (interpScan lookup subst rest3).map (fun t => sub ++ t)
                else (interpScan lookup subst rest3).map (fun t => v.data ++ t)
            else .error .interpolationSyntax
          | _ => .error .interpolationSyntax
        else .error .interpolationSyntax
    else (interpScan lookup subst rest).map (fun t => c :: t)
termination_by cs => cs.length
decreasing_by
  all_goals simp_wf
  all_goals try omega
  all_goals (have h := congrArg List.length hdrop; rw [List.length_drop] at h; simp at h; omega)

/-- `_interpolate_some` with its depth counter: Python allows depths 1
through `MAX_INTERPOLATION_DEPTH = 10` and raises `InterpolationDepthError`
on entering depth 11, so the scan at remaining budget 0 fails on any
further substitution; `before_get` starts at depth 1, budget 9. -/
def interpDepth (lookup : String → Option String) : Nat → List Char → Except PyError (List Char)
  | 0, cs => interpScan lookup (fun _ => .error .interpolationDepth) cs
  | fuel + 1, cs => interpScan lookup (fun v => interpDepth lookup fuel v.data) cs

/-- `config.get('Floodlight', option)`: interpolate the stored raw value
with `BasicInterpolation.before_get`. -/
def config_get (fl : FloodlightSection) (raw : String) : Except PyError String :=
  (interpDepth (sectionLookup fl) 9 raw.data).map String.mk

/-- `FloodlightController.__init__` (source lines 54-61): check the
configuration, then `config.get` the four fields in source order (each
get interpolates and may raise), with `DEVICE_IP` falling back to
`"Auto"` when the value it reads is empty (Python's `or`), construct the
device and call `set_version(float(device_version))`, which raises
`ValueError` when the read version is not accepted by `float`. -/
def floodlightInit (st : ConfigState) : Except PyError FloodlightController :=
  match check_config st with
  | .error e => .error e
  | .ok _ =>
    match st.floodlight with
    | none => .error .noSection
    | some fl =>
      match config_get fl fl.device_id with
      | .error e => .error e
      | .ok gid =>
        match config_get fl fl.device_ip with
        | .error e => .error e
        | .ok gip0 =>
          let ip := if gip0 = "" then "Auto" else gip0
          match config_get fl fl.device_key with
          | .error e => .error e
          | .ok gkey =>
            match config_get fl fl.device_version with
            | .error e => .error e
            | .ok gver =>
              if pyFloatOk gver then
                .ok { device_id := gid
                      device_ip := ip
                      device_key := gkey
                      device_version := gver
                      device := { dev_id := gid, address := ip, local_key := gkey } }
              else .error .valueError

/- ### Python dict semantics and `map_dps_values` -/

/-- Python dict assignment `d[k] = v` on a dict embedded as an association
list in insertion order: update the existing entry in place when the key is
present, otherwise append the new entry. -/
def dictInsert (d : List (String × DPValue)) (k : String) (v : DPValue) :
    List (String × DPValue) :=
  if d.any (fun p => p.1 == k) then
    d.map (fun p => if p.1 == k then (k, v) else p)
  else
    d ++ [(k, v)]

/-- The keys of an embedded dict, in order. -/
def dictKeys (d : List (String × DPValue)) : List String :=
  d.map Prod.fst

/-- The `mapping` dict literal of `map_dps_values` (source lines 73-79),
as the lookup `mapping.get key` performs. -/
def dpsMapping (k : String) : Option String :=
  if k = "20" then some "Power State"
  else if k = "21" then some "Mode"
  else if k = "22" then some "Brightness"
  else if k = "25" then some "Unknown"
  else if k = "26" then some "Unknown"
  else none

/-- `mapping.get(key, f"Unknown Key {key}")` (source line 82). -/
def mappedKey (k : String) : String :=
  (dpsMapping k).getD ("Unknown Key " ++ k)

/-- `FloodlightController.map_dps_values` (source lines 72-84): build the
output dict by inserting each entry of `dps` under its relabeled key. -/
def map_dps_values (dps : List (String × DPValue)) : List (String × DPValue) :=
  dps.foldl (fun out p => dictInsert out (mappedKey p.1) p.2) []

/- ### The controller commands and the CLI -/

/-- `FloodlightController.on` (source lines 63-70): the device calls the
method issues.  `brightness` defaults to `None`; Python's `if brightness:`
is falsy for both `None` and `0`. -/
def FloodlightController.on (brightness : Option Int) : List DeviceCall :=
  match brightness with
  | none => [.set_value 20 (.b true)]
  | some n =>
    if n ≠ 0 then [.set_value 20 (.b true), .set_value 22 (.i n)]
    else [.set_value 20 (.b true)]

/-- `FloodlightController.off` (source lines 93-95). -/
def FloodlightController.off : List DeviceCall :=
  [.set_value 20 (.b false)]

/-- `FloodlightController.status` (source lines 86-91) queries the device. -/
def FloodlightController.statusCalls : List DeviceCall :=
  [.statusQuery]

/-- The click `on` command's `--brightness` option (source line 102):
when the flag is absent the value is the declared default `1000`. -/
def cliOnBrightness (flag : Option Int) : Int :=
  flag.getD 1000

/-- The click `on` command body (source lines 101-105): always passes an
integer brightness to `FloodlightController.on`. -/
def cliOn (flag : Option Int) : List DeviceCall :=
  FloodlightController.on (some (cliOnBrightness flag))

/-- A CLI invocation: one of the four registered commands with its
arguments (for `configure`, the values supplied to its prompts/flags;
for `on`, the optional `--brightness` flag). -/
inductive Cmd where
  | on (flag : Option Int)
  | off
  | statusCmd
  | configureCmd (vals : FloodlightSection)
deriving DecidableEq, Repr

/-- Whether the command talks to the device (constructs a controller). -/
def Cmd.isDevice : Cmd → Bool
  | .on _ => true
  | .off => true
  | .statusCmd => true
  | .configureCmd _ => false

/-- Modelled from the spec: the external device-control library
(`tinytuya`, not part of this repository).  The spec says device
communication may fail with raw library errors; `failMsg`, when set, is
the error the library raises on the command's device communication. -/
structure DeviceBehavior where
  failMsg : Option String
deriving DecidableEq, Repr

/-- Run a command's device calls against the external library: either the
library raises, or all calls go through. -/
def execDevice (beh : DeviceBehavior) (calls : List DeviceCall) :
    Except PyError (List DeviceCall) :=
  match beh.failMsg with
  | some m => .error (.deviceError m)
  | none => .ok calls

/-- The device calls a command body issues once its controller exists
(source lines 101-115). -/
def cmdCalls : Cmd → List DeviceCall
  | .on flag => cliOn flag
  | .off => FloodlightController.off
  | .statusCmd => FloodlightController.statusCalls
  | .configureCmd _ => []

/-- Source line 35 / 132. -/
def savedMsg : String := "Configuration saved successfully!"

/-- Source line 144. -/
def malformedMsg : String :=
  "Configuration file is missing or malformed. Please reconfigure the app."

/-- Source line 146. -/
def rerunMsg : String := "Please rerun the original command."

/-- Module-level startup (source lines 16, 37-39): read the config and,
when the file is missing or has no `Floodlight` section, run the
interactive `configure` with the user's prompted values before any
command dispatch.  A prompted value that fails `before_set` makes the
module-level `configure()` raise `ValueError`, uncaught (the `try` only
wraps `cli()`).  Returns the resulting state and the echoed lines. -/
def moduleStartup (st : ConfigState) (prompts : FloodlightSection) :
    Except PyError (ConfigState × List String) :=
  if missingConfig st then
    match configure st prompts.device_id prompts.device_ip prompts.device_key
        prompts.device_version with
    | .error e => .error e
    | .ok st2 => .ok (st2, [savedMsg])
  else
    .ok (st, [])

/-- Outcome of one program run: the final configuration state, the lines
echoed to the user, the device calls that went through, and the unhandled
exception escaping the process when any. -/
structure RunOutcome where
  finalConfig : ConfigState
  echoes : List String
  deviceCalls : List DeviceCall
  error : Option PyError
deriving DecidableEq, Repr

/-- One full run of `python floodlights.py <cmd>` (source lines 139-146
plus module-level startup): re-read the config, run the module-level
missing-config check (whose `configure` may raise `ValueError` and kill
the run before dispatch, file unwritten), then dispatch the command under
`try: cli() except ConfigError`, which re-prompts and asks the user to
rerun; every other exception (`ValueError` from `before_set` or `float`,
interpolation errors from `config.get`, device library errors) escapes
unhandled.  (In the `ConfigError` branch the source calls the click
`configure` command object directly, line 145; it is embedded here as the
prompt-driven configure it is meant to be — the branch is in fact
unreachable, since the module-level check already configured.) -/
def runMain (st0 : ConfigState) (prompts : FloodlightSection)
    (beh : DeviceBehavior) (cmd : Cmd) : RunOutcome :=
  match moduleStartup st0 prompts with
  | .error e =>
    { finalConfig := st0, echoes := [], deviceCalls := [], error := some e }
  | .ok (st1, e1) =>
    match cmd with
    | .configureCmd vals =>
      match configure st1 vals.device_id vals.device_ip vals.device_key
          vals.device_version with
      | .error e =>
        { finalConfig := st1, echoes := e1, deviceCalls := [], error := some e }
      | .ok st2 =>
        { finalConfig := st2, echoes := e1 ++ [savedMsg], deviceCalls := [], error := none }
    | devCmd =>
      match floodlightInit st1 with
      | .error .configError =>
        match configure st1 prompts.device_id prompts.device_ip
            prompts.device_key prompts.device_version with
        | .error e =>
          { finalConfig := st1, echoes := e1 ++ [malformedMsg], deviceCalls := [],
            error := some e }
        | .ok st2 =>
          { finalConfig := st2, echoes := e1 ++ [malformedMsg, savedMsg, rerunMsg]
            deviceCalls := []
            error := none }
      | .error e =>
        { finalConfig := st1, echoes := e1, deviceCalls := [], error := some e }
      | .ok _ =>
        match execDevice beh (cmdCalls devCmd) with
        | .error e =>
          { finalConfig := st1, echoes := e1, deviceCalls := [], error := some e }
        | .ok calls =>
          { finalConfig := st1, echoes := e1, deviceCalls := calls, error := none }

/- ### Lemmas about the dict embedding and `map_dps_values` -/

theorem mem_dictKeys_dictInsert_self (d : List (String × DPValue)) (k : String) (v : DPValue) :
    k ∈ dictKeys (dictInsert d k v) := by
  unfold dictInsert dictKeys
  split
  · rename_i h
    rw [List.any_eq_true] at h
    obtain ⟨p, hp, hpk⟩ := h
    rw [List.mem_map]
    exact ⟨(k, v), List.mem_map.2 ⟨p, hp, by simp [hpk]⟩, rfl⟩
  · simp

theorem mem_dictKeys_dictInsert_of_mem (d : List (String × DPValue)) (k K : String)
    (v : DPValue) (h : K ∈ dictKeys d) : K ∈ dictKeys (dictInsert d k v) := by
  unfold dictInsert dictKeys at *
  split
  · rw [List.mem_map] at h
    obtain ⟨p, hp, hfst⟩ := h
    rw [List.mem_map]
    refine ⟨if p.1 == k then (k, v) else p, List.mem_map.2 ⟨p, hp, rfl⟩, ?_⟩
    by_cases hpk : (p.1 == k) = true
    · have hk : p.1 = k := beq_iff_eq.mp hpk
      rw [if_pos hpk]
      exact hk ▸ hfst
    · rw [if_neg hpk]
      exact hfst
  · rw [List.map_append, List.mem_append]
    exact Or.inl h

theorem dictKeys_dictInsert_of_contains (d : List (String × DPValue)) (k : String)
    (v : DPValue) (h : d.any (fun p => p.1 == k) = true) :
    dictKeys (dictInsert d k v) = dictKeys d := by
  unfold dictInsert dictKeys
  rw [if_pos h, List.map_map]
  apply List.map_congr_left
  intro p _
  by_cases hpk : (p.1 == k) = true
  · have hk : p.1 = k := beq_iff_eq.mp hpk
    simp [Function.comp, hpk, hk]
  · simp [Function.comp, hpk]

theorem not_mem_dictKeys_of_not_contains (d : List (String × DPValue)) (k : String)
    (h : d.any (fun p => p.1 == k) = false) : k ∉ dictKeys d := by
  intro hk
  rw [dictKeys, List.mem_map] at hk
  obtain ⟨p, hp, hfst⟩ := hk
  rw [List.any_eq_false] at h
  exact h p hp (by rw [beq_iff_eq]; exact hfst)

theorem nodup_dictKeys_dictInsert (d : List (String × DPValue)) (k : String) (v : DPValue)
    (h : (dictKeys d).Nodup) : (dictKeys (dictInsert d k v)).Nodup := by
  by_cases hc : d.any (fun p => p.1 == k) = true
  · rw [dictKeys_dictInsert_of_contains d k v hc]
    exact h
  · rw [Bool.not_eq_true] at hc
    unfold dictInsert dictKeys
    rw [if_neg (by rw [hc]; exact Bool.false_ne_true), List.map_append]
    rw [List.nodup_append]
    refine ⟨h, List.nodup_singleton k, ?_⟩
    intro a ha hb
    simp only [List.map_cons, List.map_nil, List.mem_singleton] at hb
    subst hb
    exact not_mem_dictKeys_of_not_contains d a hc ha

theorem mem_dictInsert_elim (d : List (String × DPValue)) (k : String) (v : DPValue)
    (p : String × DPValue) (h : p ∈ dictInsert d k v) : p ∈ d ∨ p = (k, v) := by
  unfold dictInsert at h
  split at h
  · rw [List.mem_map] at h
    obtain ⟨q, hq, hqe⟩ := h
    by_cases hqk : (q.1 == k) = true
    · rw [if_pos hqk] at hqe
      exact Or.inr hqe.symm
    · rw [if_neg hqk] at hqe
      exact Or.inl (hqe ▸ hq)
  · rw [List.mem_append, List.mem_singleton] at h
    exact h

theorem foldl_dictInsert_keys_mono (dps : List (String × DPValue))
    (acc : List (String × DPValue)) (K : String) (h : K ∈ dictKeys acc) :
    K ∈ dictKeys (dps.foldl (fun out p => dictInsert out (mappedKey p.1) p.2) acc) := by
  induction dps generalizing acc with
  | nil => exact h
  | cons q t ih =>
    exact ih (dictInsert acc (mappedKey q.1) q.2)
      (mem_dictKeys_dictInsert_of_mem acc (mappedKey q.1) K q.2 h)

theorem foldl_dictInsert_keys_of_mem (dps : List (String × DPValue))
    (acc : List (String × DPValue)) (k : String) (v : DPValue) (h : (k, v) ∈ dps) :
    mappedKey k ∈ dictKeys (dps.foldl (fun out p => dictInsert out (mappedKey p.1) p.2) acc) := by
  induction dps generalizing acc with
  | nil => cases h
  | cons q t ih =>
    rcases List.mem_cons.1 h with h | h
    · subst h
      exact foldl_dictInsert_keys_mono t _ (mappedKey k)
        (mem_dictKeys_dictInsert_self acc (mappedKey k) v)
    · exact ih (dictInsert acc (mappedKey q.1) q.2) h

theorem foldl_dictInsert_nodup (dps : List (String × DPValue))
    (acc : List (String × DPValue)) (h : (dictKeys acc).Nodup) :
    (dictKeys (dps.foldl (fun out p => dictInsert out (mappedKey p.1) p.2) acc)).Nodup := by
  induction dps generalizing acc with
  | nil => exact h
  | cons q t ih =>
    exact ih (dictInsert acc (mappedKey q.1) q.2)
      (nodup_dictKeys_dictInsert acc (mappedKey q.1) q.2 h)

theorem foldl_dictInsert_mem_elim (dps : List (String × DPValue))
    (acc : List (String × DPValue)) (p : String × DPValue)
    (h : p ∈ dps.foldl (fun out q => dictInsert out (mappedKey q.1) q.2) acc) :
    p ∈ acc ∨ ∃ q ∈ dps, p = (mappedKey q.1, q.2) := by
  induction dps generalizing acc with
  | nil => exact Or.inl h
  | cons q t ih =>
    rcases ih (dictInsert acc (mappedKey q.1) q.2) h with h2 | ⟨r, hr, hre⟩
    · rcases mem_dictInsert_elim acc (mappedKey q.1) q.2 p h2 with h3 | h3
      · exact Or.inl h3
      · exact Or.inr ⟨q, List.mem_cons_self q t, h3⟩
    · exact Or.inr ⟨r, List.mem_cons_of_mem q hr, hre⟩

theorem mappedKey_eq_unknown {k : String} (h : mappedKey k = "Unknown") :
    k = "25" ∨ k = "26" := by
  unfold mappedKey dpsMapping at h
  split_ifs at h with h20 h21 h22 h25 h26
  · rw [Option.getD_some] at h
    exact absurd h (by decide)
  · rw [Option.getD_some] at h
    exact absurd h (by decide)
  · rw [Option.getD_some] at h
    exact absurd h (by decide)
  · exact Or.inl h25
  · exact Or.inr h26
  · exfalso
    rw [Option.getD_none] at h
    have hlen := congrArg String.length h
    rw [String.length_append] at hlen
    have h12 : "Unknown Key ".length = 12 := rfl
    have h7 : "Unknown".length = 7 := rfl
    rw [h12, h7] at hlen
    omega

theorem mem_keyval_unique {d : List (String × DPValue)} (hnd : (dictKeys d).Nodup)
    {k : String} {a b : DPValue} (ha : (k, a) ∈ d) (hb : (k, b) ∈ d) : a = b := by
  induction d with
  | nil => cases ha
  | cons q t ih =>
    have hnd2 : q.1 ∉ dictKeys t ∧ (dictKeys t).Nodup := by
      rw [dictKeys, List.map_cons, List.nodup_cons] at hnd
      exact hnd
    rcases List.mem_cons.1 ha with ha1 | ha1 <;> rcases List.mem_cons.1 hb with hb1 | hb1
    · rw [← ha1] at hb1
      exact (Prod.ext_iff.mp hb1).2.symm
    · exfalso
      apply hnd2.1
      rw [← ha1]
      exact List.mem_map.2 ⟨(k, b), hb1, rfl⟩
    · exfalso
      apply hnd2.1
      rw [← hb1]
      exact List.mem_map.2 ⟨(k, a), ha1, rfl⟩
    · exact ih hnd2.2 ha1 hb1

/- ### Identity lemmas: `%`-free values pass interpolation unchanged -/

theorem removeDoublePercents_of_no_percent (cs : List Char) (h : cs.contains '%' = false) :
    removeDoublePercents cs = cs := by
  induction cs with
  | nil => rfl
  | cons c rest ih =>
    rw [List.contains_cons] at h
    rcases Bool.or_eq_false_iff.mp h with ⟨hc0, hr⟩
    have hc : ¬ c = '%' := by
      intro hc
      subst hc
      simp at hc0
    rw [removeDoublePercents.eq_3 c rest (fun r h1 _ => hc h1), ih hr]

theorem removeKeyRefs_of_no_percent (cs : List Char) (h : cs.contains '%' = false) :
    removeKeyRefs cs = cs := by
  induction cs with
  | nil => simp [removeKeyRefs]
  | cons c rest ih =>
    rw [List.contains_cons] at h
    rcases Bool.or_eq_false_iff.mp h with ⟨hc0, hr⟩
    have hc : ¬ c = '%' := by
      intro hc
      subst hc
      simp at hc0
    rw [removeKeyRefs.eq_def]
    simp only []
    rw [if_neg hc, ih hr]

theorem before_set_ok_of_no_percent (v : String) (h : v.data.contains '%' = false) :
    before_set_ok v = true := by
  rw [before_set_ok, removeDoublePercents_of_no_percent v.data h,
    removeKeyRefs_of_no_percent v.data h, h]
  rfl

theorem interpScan_of_no_percent (lookup : String → Option String)
    (subst : String → Except PyError (List Char)) (cs : List Char)
    (h : cs.contains '%' = false) : interpScan lookup subst cs = .ok cs := by
  induction cs with
  | nil => simp [interpScan]
  | cons c rest ih =>
    rw [List.contains_cons] at h
    rcases Bool.or_eq_false_iff.mp h with ⟨hc0, hr⟩
    have hc : ¬ c = '%' := by
      intro hc
      subst hc
      simp at hc0
    rw [interpScan.eq_def]
    simp only []
    rw [if_neg hc, ih hr]
    rfl

theorem interpDepth_of_no_percent (lookup : String → Option String) (fuel : Nat)
    (cs : List Char) (h : cs.contains '%' = false) :
    interpDepth lookup fuel cs = .ok cs := by
  cases fuel with
  | zero => exact interpScan_of_no_percent lookup _ cs h
  | succ n => exact interpScan_of_no_percent lookup _ cs h

theorem config_get_of_no_percent (fl : FloodlightSection) (raw : String)
    (h : raw.data.contains '%' = false) : config_get fl raw = .ok raw := by
  rw [config_get, interpDepth_of_no_percent (sectionLookup fl) 9 raw.data h]
  rfl

/- ### Helper lemmas about configure and controller construction -/

theorem configure_ok_of_clean (st : ConfigState) (i ip k v : String)
    (h1 : i.data.contains '%' = false) (h2 : ip.data.contains '%' = false)
    (h3 : k.data.contains '%' = false) (h4 : v.data.contains '%' = false) :
    configure st i ip k v =
      .ok { fileExists := true, floodlight := some ⟨i, ip, k, v⟩ } := by
  simp [configure, before_set_ok_of_no_percent i h1, before_set_ok_of_no_percent ip h2,
    before_set_ok_of_no_percent k h3, before_set_ok_of_no_percent v h4]

theorem floodlightInit_ok_of_stored (st : ConfigState) (fl : FloodlightSection)
    (hst : st.fileExists = true) (hfl : st.floodlight = some fl)
    (h1 : fl.device_id.data.contains '%' = false)
    (h2 : fl.device_ip.data.contains '%' = false)
    (h3 : fl.device_key.data.contains '%' = false)
    (h4 : fl.device_version.data.contains '%' = false)
    (hv : pyFloatOk fl.device_version = true) :
    floodlightInit st =
      .ok { device_id := fl.device_id,
            device_ip := if fl.device_ip = "" then "Auto" else fl.device_ip,
            device_key := fl.device_key,
            device_version := fl.device_version,
            device := { dev_id := fl.device_id,
                        address := if fl.device_ip = "" then "Auto" else fl.device_ip,
                        local_key := fl.device_key } } := by
  simp [floodlightInit, check_config, missingConfig, hst, hfl,
    config_get_of_no_percent fl fl.device_id h1, config_get_of_no_percent fl fl.device_ip h2,
    config_get_of_no_percent fl fl.device_key h3,
    config_get_of_no_percent fl fl.device_version h4, hv]

theorem floodlightInit_valueError (st : ConfigState) (fl : FloodlightSection)
    (hst : st.fileExists = true) (hfl : st.floodlight = some fl)
    (h1 : fl.device_id.data.contains '%' = false)
    (h2 : fl.device_ip.data.contains '%' = false)
    (h3 : fl.device_key.data.contains '%' = false)
    (h4 : fl.device_version.data.contains '%' = false)
    (hv : pyFloatOk fl.device_version = false) :
    floodlightInit st = .error .valueError := by
  simp [floodlightInit, check_config, missingConfig, hst, hfl,
    config_get_of_no_percent fl fl.device_id h1, config_get_of_no_percent fl fl.device_ip h2,
    config_get_of_no_percent fl fl.device_key h3,
    config_get_of_no_percent fl fl.device_version h4, hv]

/- ### Fidelity checks of the interpolation embedding at concrete values -/

/-- `config.get` unescapes `%%` to `%`: a stored `a%%b` reads back `a%b`. -/
theorem config_get_unescapes_double_percent :
    config_get ⟨"dev7", "", "a%%b", "3.3"⟩ "a%%b" = .ok "a%b" := by
  have hd : "a%%b".data = ['a', '%', '%', 'b'] := rfl
  rw [config_get, hd]
  simp [interpDepth, interpScan, Except.map]

/-- `before_set` rejects a bare `%`: `100%` cannot be assigned. -/
theorem before_set_rejects_bare_percent : before_set_ok "100%" = false := by
  have hd : removeDoublePercents "100%".data = ['1', '0', '0', '%'] := rfl
  have hk : removeKeyRefs ['1', '0', '0', '%'] = ['1', '0', '0', '%'] := by
    simp [removeKeyRefs]
  rw [before_set_ok, hd, hk]
  rfl

/-- `config.get` raises `InterpolationSyntaxError` on a stored bare `%`. -/
theorem config_get_bare_percent_raises (fl : FloodlightSection) :
    config_get fl "100%" = .error .interpolationSyntax := by
  have hd : "100%".data = ['1', '0', '0', '%'] := rfl
  rw [config_get, hd]
  simp [interpDepth, interpScan, Except.map]

/- ### The claims -/

/-- Claim C5 (corrected): the `device_ip` field is optional — when it is
empty, the controller constructs the device client with `"Auto"` (not
`"auto-discover"`) in its place, for stored sections whose other fields are
free of percent signs (so each `config.get` returns them unchanged) and
whose version is accepted by `float`. -/
theorem c5_empty_ip_default (st : ConfigState) (fl : FloodlightSection)
    (hst : st.fileExists = true) (hfl : st.floodlight = some fl)
    (hip : fl.device_ip = "")
    (h1 : fl.device_id.data.contains '%' = false)
    (h3 : fl.device_key.data.contains '%' = false)
    (h4 : fl.device_version.data.contains '%' = false)
    (hv : pyFloatOk fl.device_version = true) :
    floodlightInit st =
      .ok { device_id := fl.device_id, device_ip := "Auto", device_key := fl.device_key,
            device_version := fl.device_version,
            device := { dev_id := fl.device_id, address := "Auto",
                        local_key := fl.device_key } } := by
  have h2 : fl.device_ip.data.contains '%' = false := by
    rw [hip]
    rfl
  rw [floodlightInit_ok_of_stored st fl hst hfl h1 h2 h3 h4 hv]
  simp [hip]

/-- Witness for C5 at a concrete stored configuration with empty ip. -/
theorem c5_empty_ip_default_witness :
    floodlightInit ⟨true, some ⟨"dev7", "", "secret", "3.3"⟩⟩ =
      .ok { device_id := "dev7", device_ip := "Auto", device_key := "secret",
            device_version := "3.3",
            device := { dev_id := "dev7", address := "Auto", local_key := "secret" } } :=
  c5_empty_ip_default ⟨true, some ⟨"dev7", "", "secret", "3.3"⟩⟩
    ⟨"dev7", "", "secret", "3.3"⟩ rfl rfl rfl (by decide) (by decide) (by decide) (by rfl)

/-- Claim C5 counterexample: the default placed in the device client for an
empty stored ip is the literal `"Auto"`, not `"auto-discover"`. -/
theorem c5_default_counterexample :
    (floodlightInit ⟨true, some ⟨"dev7", "", "secret", "3.3"⟩⟩).toOption.map
        (fun c => c.device.address) = some "Auto"
    ∧ ("Auto" : String) ≠ "auto-discover" := by
  refine ⟨?_, by decide⟩
  rw [floodlightInit_ok_of_stored ⟨true, some ⟨"dev7", "", "secret", "3.3"⟩⟩
    ⟨"dev7", "", "secret", "3.3"⟩ rfl rfl (by decide) (by decide) (by decide) (by decide)
    (by rfl)]
  rfl

/-- Claim C7 (corrected): when all four supplied values pass the INI
interpolation syntax check of `before_set` — in particular whenever none
contains a percent sign — `configure` replaces the stored record wholesale
with exactly the four supplied values, independent of the previous state (no
merging of old field values).  A supplied value with a bare `%` instead makes
the assignment raise `ValueError` and nothing is stored. -/
theorem c7_configure_wholesale (st st' : ConfigState) (i ip k v : String)
    (h1 : i.data.contains '%' = false) (h2 : ip.data.contains '%' = false)
    (h3 : k.data.contains '%' = false) (h4 : v.data.contains '%' = false) :
    configure st i ip k v = .ok { fileExists := true, floodlight := some ⟨i, ip, k, v⟩ }
    ∧ configure st i ip k v = configure st' i ip k v :=
  ⟨configure_ok_of_clean st i ip k v h1 h2 h3 h4, rfl⟩

/-- Witness for C7 at a concrete quadruple over two distinct prior states. -/
theorem c7_configure_wholesale_witness :
    configure ⟨true, some ⟨"old", "oldip", "oldkey", "1.0"⟩⟩ "dev7" "192.168.0.9"
        "secret" "3.3" =
      .ok { fileExists := true, floodlight := some ⟨"dev7", "192.168.0.9", "secret", "3.3"⟩ }
    ∧ configure ⟨true, some ⟨"old", "oldip", "oldkey", "1.0"⟩⟩ "dev7" "192.168.0.9"
        "secret" "3.3" =
      configure ⟨false, none⟩ "dev7" "192.168.0.9" "secret" "3.3" :=
  c7_configure_wholesale ⟨true, some ⟨"old", "oldip", "oldkey", "1.0"⟩⟩ ⟨false, none⟩
    "dev7" "192.168.0.9" "secret" "3.3" (by decide) (by decide) (by decide) (by decide)

/-- Claim C7 counterexample: a supplied value containing a bare `%` makes the
assignment raise `ValueError` — the new values are not stored, so
reconfiguration does not always end with the four supplied values. -/
theorem c7_percent_counterexample :
    configure ⟨true, some ⟨"old", "oldip", "oldkey", "1.0"⟩⟩ "dev7" "1.2.3.4" "secret"
        "100%" = .error .valueError := by
  have b1 : before_set_ok "dev7" = true := before_set_ok_of_no_percent _ (by decide)
  have b2 : before_set_ok "1.2.3.4" = true := before_set_ok_of_no_percent _ (by decide)
  have b3 : before_set_ok "secret" = true := before_set_ok_of_no_percent _ (by decide)
  simp [configure, b1, b2, b3, before_set_rejects_bare_percent]

/-- Claim C2 (corrected): invoking a device command when the configuration
file does not exist or lacks the Floodlight section triggers the interactive
configure flow at startup (the module-level check), saves the prompted values,
and then runs the command with the new configuration rather than crashing with
an unhandled `ConfigError`, provided the prompted values contain no percent
signs and the prompted version is accepted by `float`; it never echoes the
request to rerun the command (that message lives in the `except ConfigError`
handler, which this path does not reach).  A prompted value with a bare `%`
or a non-float version still crashes the run with an unhandled error. -/
theorem c2_missing_config_flow (st : ConfigState) (prompts : FloodlightSection) (cmd : Cmd)
    (hmiss : missingConfig st = true)
    (h1 : prompts.device_id.data.contains '%' = false)
    (h2 : prompts.device_ip.data.contains '%' = false)
    (h3 : prompts.device_key.data.contains '%' = false)
    (h4 : prompts.device_version.data.contains '%' = false)
    (hv : pyFloatOk prompts.device_version = true)
    (hdev : cmd.isDevice = true) :
    (runMain st prompts ⟨none⟩ cmd).finalConfig =
        { fileExists := true, floodlight := some prompts }
    ∧ (runMain st prompts ⟨none⟩ cmd).echoes = [savedMsg]
    ∧ rerunMsg ∉ (runMain st prompts ⟨none⟩ cmd).echoes
    ∧ (runMain st prompts ⟨none⟩ cmd).error = none
    ∧ (runMain st prompts ⟨none⟩ cmd).deviceCalls = cmdCalls cmd := by
  obtain ⟨pid, pip, pkey, pver⟩ := prompts
  have hms : moduleStartup st ⟨pid, pip, pkey, pver⟩ =
      .ok ({ fileExists := true, floodlight := some ⟨pid, pip, pkey, pver⟩ }, [savedMsg]) := by
    simp [moduleStartup, hmiss, configure_ok_of_clean st pid pip pkey pver h1 h2 h3 h4]
  have hinit : floodlightInit { fileExists := true, floodlight := some ⟨pid, pip, pkey, pver⟩ } =
      .ok { device_id := pid, device_ip := if pip = "" then "Auto" else pip,
            device_key := pkey, device_version := pver,
            device := { dev_id := pid, address := if pip = "" then "Auto" else pip,
                        local_key := pkey } } :=
    floodlightInit_ok_of_stored _ ⟨pid, pip, pkey, pver⟩ rfl rfl h1 h2 h3 h4 hv
  have hrerun : rerunMsg ∉ [savedMsg] := by decide
  cases cmd
  case configureCmd vals => simp [Cmd.isDevice] at hdev
  case _ flag =>
    have hrun : runMain st ⟨pid, pip, pkey, pver⟩ ⟨none⟩ (Cmd.on flag) =
        { finalConfig := { fileExists := true, floodlight := some ⟨pid, pip, pkey, pver⟩ }
          echoes := [savedMsg]
          deviceCalls := cliOn flag
          error := none } := by
      simp [runMain, hms, hinit, execDevice, cmdCalls]
    rw [hrun]
    exact ⟨rfl, rfl, hrerun, rfl, rfl⟩
  case off =>
    have hrun : runMain st ⟨pid, pip, pkey, pver⟩ ⟨none⟩ Cmd.off =
        { finalConfig := { fileExists := true, floodlight := some ⟨pid, pip, pkey, pver⟩ }
          echoes := [savedMsg]
          deviceCalls := FloodlightController.off
          error := none } := by
      simp [runMain, hms, hinit, execDevice, cmdCalls]
    rw [hrun]
    exact ⟨rfl, rfl, hrerun, rfl, rfl⟩
  case statusCmd =>
    have hrun : runMain st ⟨pid, pip, pkey, pver⟩ ⟨none⟩ Cmd.statusCmd =
        { finalConfig := { fileExists := true, floodlight := some ⟨pid, pip, pkey, pver⟩ }
          echoes := [savedMsg]
          deviceCalls := FloodlightController.statusCalls
          error := none } := by
      simp [runMain, hms, hinit, execDevice, cmdCalls]
    rw [hrun]
    exact ⟨rfl, rfl, hrerun, rfl, rfl⟩

/-- Witness for C2: a run of `off` with no configuration present. -/
theorem c2_missing_config_flow_witness :
    (runMain ⟨false, none⟩ ⟨"dev7", "192.168.0.9", "secret", "3.3"⟩ ⟨none⟩ Cmd.off).finalConfig =
        { fileExists := true, floodlight := some ⟨"dev7", "192.168.0.9", "secret", "3.3"⟩ }
    ∧ (runMain ⟨false, none⟩ ⟨"dev7", "192.168.0.9", "secret", "3.3"⟩ ⟨none⟩ Cmd.off).echoes =
        [savedMsg]
    ∧ rerunMsg ∉ (runMain ⟨false, none⟩ ⟨"dev7", "192.168.0.9", "secret", "3.3"⟩ ⟨none⟩
        Cmd.off).echoes
    ∧ (runMain ⟨false, none⟩ ⟨"dev7", "192.168.0.9", "secret", "3.3"⟩ ⟨none⟩ Cmd.off).error =
        none
    ∧ (runMain ⟨false, none⟩ ⟨"dev7", "192.168.0.9", "secret", "3.3"⟩ ⟨none⟩
        Cmd.off).deviceCalls = cmdCalls Cmd.off :=
  c2_missing_config_flow ⟨false, none⟩ ⟨"dev7", "192.168.0.9", "secret", "3.3"⟩ Cmd.off
    rfl (by decide) (by decide) (by decide) (by decide) (by rfl) rfl

/-- Claim C2 counterexample: with the configuration absent, running `off`
configures at startup and then just runs the command — the program never asks
the user to rerun the original command. -/
theorem c2_rerun_counterexample :
    (runMain ⟨false, none⟩ ⟨"dev7", "192.168.0.9", "secret", "3.3"⟩ ⟨none⟩ Cmd.off).echoes =
      [savedMsg]
    ∧ rerunMsg ∉ (runMain ⟨false, none⟩ ⟨"dev7", "192.168.0.9", "secret", "3.3"⟩ ⟨none⟩
        Cmd.off).echoes := by
  have hms : moduleStartup ⟨false, none⟩ ⟨"dev7", "192.168.0.9", "secret", "3.3"⟩ =
      .ok (⟨true, some ⟨"dev7", "192.168.0.9", "secret", "3.3"⟩⟩, [savedMsg]) := by
    simp [moduleStartup, missingConfig,
      configure_ok_of_clean ⟨false, none⟩ "dev7" "192.168.0.9" "secret" "3.3"
        (by decide) (by decide) (by decide) (by decide)]
  have hinit := floodlightInit_ok_of_stored
    ⟨true, some ⟨"dev7", "192.168.0.9", "secret", "3.3"⟩⟩
    ⟨"dev7", "192.168.0.9", "secret", "3.3"⟩ rfl rfl
    (by decide) (by decide) (by decide) (by decide) (by rfl)
  have hrun : (runMain ⟨false, none⟩ ⟨"dev7", "192.168.0.9", "secret", "3.3"⟩ ⟨none⟩
      Cmd.off).echoes = [savedMsg] := by
    simp [runMain, hms, hinit, execDevice, cmdCalls]
  refine ⟨hrun, ?_⟩
  rw [hrun]
  decide

/-- Claim C6 (confirmed): when the device library raises during a device
command's communication, the error propagates out of the program unchanged,
message included; only `ConfigError` is caught by the `__main__` handler.
The hypotheses put the run on the device-communication path: the stored
section is present, its fields are free of percent signs (so each
`config.get` succeeds unchanged) and its version is accepted by `float`,
so the controller is constructed and the device is reached. -/
theorem c6_device_error_propagates (st : ConfigState) (prompts fl : FloodlightSection)
    (cmd : Cmd) (msg : String)
    (hst : st.fileExists = true) (hfl : st.floodlight = some fl)
    (h1 : fl.device_id.data.contains '%' = false)
    (h2 : fl.device_ip.data.contains '%' = false)
    (h3 : fl.device_key.data.contains '%' = false)
    (h4 : fl.device_version.data.contains '%' = false)
    (hv : pyFloatOk fl.device_version = true) (hdev : cmd.isDevice = true) :
    (runMain st prompts ⟨some msg⟩ cmd).error = some (PyError.deviceError msg) := by
  have hm : missingConfig st = false := by simp [missingConfig, hst, hfl]
  have hms : moduleStartup st prompts = .ok (st, []) := by simp [moduleStartup, hm]
  have hinit := floodlightInit_ok_of_stored st fl hst hfl h1 h2 h3 h4 hv
  cases cmd
  case configureCmd vals => simp [Cmd.isDevice] at hdev
  all_goals simp [runMain, hms, hinit, execDevice]

/-- Witness for C6: a status run against a failing device. -/
theorem c6_device_error_propagates_witness :
    (runMain ⟨true, some ⟨"dev7", "192.168.0.9", "secret", "3.3"⟩⟩
        ⟨"p", "q", "r", "1.0"⟩ ⟨some "socket timeout"⟩ Cmd.statusCmd).error =
      some (PyError.deviceError "socket timeout") :=
  c6_device_error_propagates ⟨true, some ⟨"dev7", "192.168.0.9", "secret", "3.3"⟩⟩
    ⟨"p", "q", "r", "1.0"⟩ ⟨"dev7", "192.168.0.9", "secret", "3.3"⟩ Cmd.statusCmd
    "socket timeout" rfl rfl (by decide) (by decide) (by decide) (by decide) (by rfl) rfl

/-- Claim C10 (corrected): a stored `device_version` that interpolates to
itself (no percent signs, like all versions the configure prompts normally
store) but is not accepted by Python `float` makes controller construction
raise `ValueError` from the unguarded `float(...)`, which is not the handled
configuration error: it escapes the whole run unhandled.  A stored version
with a bare `%` instead raises `InterpolationSyntaxError` at the
`config.get` on line 59, before the float conversion — also unhandled, but
not a conversion error. -/
theorem c10_unparseable_version (st : ConfigState) (prompts fl : FloodlightSection)
    (beh : DeviceBehavior) (cmd : Cmd)
    (hst : st.fileExists = true) (hfl : st.floodlight = some fl)
    (h1 : fl.device_id.data.contains '%' = false)
    (h2 : fl.device_ip.data.contains '%' = false)
    (h3 : fl.device_key.data.contains '%' = false)
    (h4 : fl.device_version.data.contains '%' = false)
    (hv : pyFloatOk fl.device_version = false) (hdev : cmd.isDevice = true) :
    floodlightInit st = .error .valueError
    ∧ (runMain st prompts beh cmd).error = some PyError.valueError := by
  have hinit := floodlightInit_valueError st fl hst hfl h1 h2 h3 h4 hv
  have hm : missingConfig st = false := by simp [missingConfig, hst, hfl]
  have hms : moduleStartup st prompts = .ok (st, []) := by simp [moduleStartup, hm]
  refine ⟨hinit, ?_⟩
  cases cmd
  case configureCmd vals => simp [Cmd.isDevice] at hdev
  all_goals simp [runMain, hms, hinit]

/-- Witness for C10: a stored version string `float` rejects. -/
theorem c10_unparseable_version_witness :
    floodlightInit ⟨true, some ⟨"dev7", "192.168.0.9", "secret", "version3"⟩⟩ =
      .error .valueError
    ∧ (runMain ⟨true, some ⟨"dev7", "192.168.0.9", "secret", "version3"⟩⟩
        ⟨"p", "q", "r", "1.0"⟩ ⟨none⟩ Cmd.statusCmd).error = some PyError.valueError :=
  c10_unparseable_version ⟨true, some ⟨"dev7", "192.168.0.9", "secret", "version3"⟩⟩
    ⟨"p", "q", "r", "1.0"⟩ ⟨"dev7", "192.168.0.9", "secret", "version3"⟩ ⟨none⟩
    Cmd.statusCmd rfl rfl (by decide) (by decide) (by decide) (by decide) (by rfl) rfl

/-- Claim C10 counterexample: the stored version `100%` is not accepted by
`float`, yet construction does not raise the conversion error — the
`config.get` of the version raises `InterpolationSyntaxError` first. -/
theorem c10_percent_version_counterexample :
    pyFloatOk "100%" = false
    ∧ floodlightInit ⟨true, some ⟨"dev7", "192.168.0.9", "secret", "100%"⟩⟩ =
        .error .interpolationSyntax
    ∧ PyError.interpolationSyntax ≠ PyError.valueError := by
  refine ⟨by rfl, ?_, by decide⟩
  have g1 := config_get_of_no_percent ⟨"dev7", "192.168.0.9", "secret", "100%"⟩ "dev7"
    (by decide)
  have g2 := config_get_of_no_percent ⟨"dev7", "192.168.0.9", "secret", "100%"⟩ "192.168.0.9"
    (by decide)
  have g3 := config_get_of_no_percent ⟨"dev7", "192.168.0.9", "secret", "100%"⟩ "secret"
    (by decide)
  have g4 := config_get_bare_percent_raises ⟨"dev7", "192.168.0.9", "secret", "100%"⟩
  simp [floodlightInit, check_config, missingConfig, g1, g2, g3, g4]

/-- Claim C3 (confirmed): for every dps dictionary, the relabeling used by the
status command maps a code found in its lookup table to that table's fixed
name, maps a code not in the table to `"Unknown Key " ++ code` (a label
containing the original code), and the relabeled key appears in the output
dictionary. -/
theorem c3_status_relabeling (dps : List (String × DPValue)) (k : String) (v : DPValue)
    (h : (k, v) ∈ dps) :
    (∀ n, dpsMapping k = some n → mappedKey k = n)
    ∧ (dpsMapping k = none → mappedKey k = "Unknown Key " ++ k)
    ∧ mappedKey k ∈ dictKeys (map_dps_values dps) := by
  refine ⟨?_, ?_, ?_⟩
  · intro n hn
    rw [mappedKey, hn, Option.getD_some]
  · intro hn
    rw [mappedKey, hn, Option.getD_none]
  · exact foldl_dictInsert_keys_of_mem dps [] k v h

/-- Witness for C3 at a concrete dictionary and code. -/
theorem c3_status_relabeling_witness :
    (∀ n, dpsMapping "20" = some n → mappedKey "20" = n)
    ∧ (dpsMapping "20" = none → mappedKey "20" = "Unknown Key " ++ "20")
    ∧ mappedKey "20" ∈ dictKeys (map_dps_values [("20", DPValue.b true)]) :=
  c3_status_relabeling [("20", DPValue.b true)] "20" (DPValue.b true)
    (List.mem_singleton.mpr rfl)

/-- Claim C4 (corrected): the brightness is optional only at the controller
method: `FloodlightController.on` with no brightness sets only the power data
point, and with a nonzero brightness `n` sets power then brightness `n`; the
CLI `on` command always passes a brightness (default 1000), so invoking it
without the flag sets power and then brightness 1000. -/
theorem c4_on_optional_brightness (n : Int) (hn : n ≠ 0) :
    FloodlightController.on none = [DeviceCall.set_value 20 (DPValue.b true)]
    ∧ FloodlightController.on (some n) =
        [DeviceCall.set_value 20 (DPValue.b true), DeviceCall.set_value 22 (DPValue.i n)]
    ∧ cliOn none =
        [DeviceCall.set_value 20 (DPValue.b true), DeviceCall.set_value 22 (DPValue.i 1000)]
    ∧ cliOn (some n) =
        [DeviceCall.set_value 20 (DPValue.b true), DeviceCall.set_value 22 (DPValue.i n)] := by
  refine ⟨rfl, ?_, rfl, ?_⟩
  · simp [FloodlightController.on, hn]
  · simp [cliOn, cliOnBrightness, FloodlightController.on, hn]

/-- Witness for C4 at brightness 500. -/
theorem c4_on_optional_brightness_witness :
    FloodlightController.on none = [DeviceCall.set_value 20 (DPValue.b true)]
    ∧ FloodlightController.on (some 500) =
        [DeviceCall.set_value 20 (DPValue.b true), DeviceCall.set_value 22 (DPValue.i 500)]
    ∧ cliOn none =
        [DeviceCall.set_value 20 (DPValue.b true), DeviceCall.set_value 22 (DPValue.i 1000)]
    ∧ cliOn (some 500) =
        [DeviceCall.set_value 20 (DPValue.b true), DeviceCall.set_value 22 (DPValue.i 500)] :=
  c4_on_optional_brightness 500 (by decide)

/-- Claim C4 counterexample: the `on` command without `--brightness` does not
set only the power data point; it also sets brightness to the default 1000. -/
theorem c4_on_counterexample :
    cliOn none =
      [DeviceCall.set_value 20 (DPValue.b true), DeviceCall.set_value 22 (DPValue.i 1000)]
    ∧ cliOn none ≠ [DeviceCall.set_value 20 (DPValue.b true)] :=
  ⟨rfl, by decide⟩

/-- Claim C8 (confirmed): the `on` command without `--brightness` sets the
brightness data point to the default 1000, and with `--brightness 0` (falsy in
Python) powers on without setting brightness at all. -/
theorem c8_default_and_zero_brightness :
    cliOn none =
      [DeviceCall.set_value 20 (DPValue.b true), DeviceCall.set_value 22 (DPValue.i 1000)]
    ∧ cliOn (some 0) = [DeviceCall.set_value 20 (DPValue.b true)] := by
  constructor
  · rfl
  · simp [cliOn, cliOnBrightness, FloodlightController.on]

/-- Claim C9 (confirmed): codes `"25"` and `"26"` both relabel to `"Unknown"`,
so in the relabeled output of any dps dictionary (with distinct keys, as
Python dicts have) containing both codes there is exactly one `"Unknown"`
entry, and its value is one of the two original values — the other is
dropped. -/
theorem c9_unknown_collision (dps : List (String × DPValue)) (v1 v2 : DPValue)
    (hnd : (dictKeys dps).Nodup) (h1 : ("25", v1) ∈ dps) (h2 : ("26", v2) ∈ dps) :
    mappedKey "25" = "Unknown"
    ∧ mappedKey "26" = "Unknown"
    ∧ (dictKeys (map_dps_values dps)).count "Unknown" = 1
    ∧ ∀ w, ("Unknown", w) ∈ map_dps_values dps → w = v1 ∨ w = v2 := by
  refine ⟨rfl, rfl, ?_, ?_⟩
  · apply List.count_eq_one_of_mem
    · exact foldl_dictInsert_nodup dps [] (by simp [dictKeys])
    · exact foldl_dictInsert_keys_of_mem dps [] "25" v1 h1
  · intro w hw
    rcases foldl_dictInsert_mem_elim dps [] ("Unknown", w) hw with h0 | ⟨q, hq, hqe⟩
    · cases h0
    · have hk : mappedKey q.1 = "Unknown" := (Prod.ext_iff.mp hqe).1.symm
      have hv : q.2 = w := (Prod.ext_iff.mp hqe).2.symm
      rcases mappedKey_eq_unknown hk with h25 | h26
      · left
        have hq25 : ("25", w) ∈ dps := by
          have hqq : q = ("25", w) := Prod.ext_iff.mpr ⟨h25, hv⟩
          rwa [hqq] at hq
        exact mem_keyval_unique hnd hq25 h1
      · right
        have hq26 : ("26", w) ∈ dps := by
          have hqq : q = ("26", w) := Prod.ext_iff.mpr ⟨h26, hv⟩
          rwa [hqq] at hq
        exact mem_keyval_unique hnd hq26 h2

/-- Witness for C9 at a concrete dictionary holding both codes. -/
theorem c9_unknown_collision_witness :
    mappedKey "25" = "Unknown"
    ∧ mappedKey "26" = "Unknown"
    ∧ (dictKeys (map_dps_values [("25", DPValue.i 1), ("26", DPValue.i 2)])).count
        "Unknown" = 1
    ∧ ∀ w, ("Unknown", w) ∈ map_dps_values [("25", DPValue.i 1), ("26", DPValue.i 2)] →
        w = DPValue.i 1 ∨ w = DPValue.i 2 :=
  c9_unknown_collision [("25", DPValue.i 1), ("26", DPValue.i 2)] (DPValue.i 1)
    (DPValue.i 2) (by decide) (by decide) (by decide)
